import Mathlib

/-!
Verification development for the MarketLabs contract-analysis core.

The Python sources under `src/` are shallowly embedded: exceptions become an
inductive type, fallible calls return an explicit result type, effectful
components (retry wrapper, orchestrator, job worker) become pure functions
over an explicit environment describing collaborator behaviour, and traces
record the externally visible effects (queue acks, re-queues, provider calls,
commits).  Strings are Lean `String`s; the response-validator's fence
stripping is modelled over `List Char` so that the character-level regex
substitutions of `clause_extraction.py` can be reasoned about directly.
Python `float` values that only ever undergo comparison and exact doubling
are modelled as `ℚ`.
-/

namespace MarketLabs

/-- Embedding of the Python exception classes that can cross the boundaries
modelled here: the `AnalysisError` hierarchy of `src/services/exceptions.py`,
`httpx.HTTPStatusError`, the worker's `LockAcquisitionError`, and a catch-all
constructor for any other `Exception` (for example the `ValueError` raised by
an enum constructor).  Each carries the text that Python's `str(exc)` would
produce; `validationError` additionally carries the raw response, as
`AIResponseValidationError` does. -/
inductive PyExc where
  | aiTimeout (msg : String)
  | httpStatusError (msg : String)
  | validationError (msg : String) (rawResponse : String)
  | documentNotFound (msg : String)
  | emptyDocument (msg : String)
  | lockAcquisition (msg : String)
  | otherExc (msg : String)
deriving DecidableEq, Repr

/-- `str(exc)` for the embedded exceptions: every modelled class stores its
message (`AnalysisError.__init__` passes it to `Exception`). -/
def PyExc.message : PyExc → String
  | .aiTimeout m => m
  | .httpStatusError m => m
  | .validationError m _ => m
  | .documentNotFound m => m
  | .emptyDocument m => m
  | .lockAcquisition m => m
  | .otherExc m => m

/-- Result of one Python call: a normal return or a raised exception. -/
inductive CallResult (T : Type) where
  | ok (v : T)
  | exc (e : PyExc)
deriving DecidableEq, Repr

/-- The default `retryable_exceptions` tuple of `retry_with_backoff`
(`src/services/retry.py` lines 22–25): `(AITimeoutError, httpx.HTTPStatusError)`.
An `except` clause matches by class, so the tuple is embedded as a predicate
on the exception's constructor. -/
def defaultRetryable : PyExc → Bool
  | .aiTimeout _ => true
  | .httpStatusError _ => true
  | _ => false

/-- Placed in `last_exception` position when the `for` loop of
`retry_with_backoff` never ran (`max_retries = 0`): Python would execute
`raise None`, which itself raises a `TypeError`. -/
def raiseLast : Option PyExc → CallResult T
  | some e => .exc e
  | none => .exc (.otherExc "TypeError: exceptions must derive from BaseException")

/-- The `for attempt in range(max_retries)` loop of `retry_with_backoff`.
`func` gives the behaviour of the wrapped async callable on its n-th
invocation (0-indexed); `remaining` counts the loop iterations left and `i`
the attempts already started.  Returns the call result (normal return, the
immediately propagated non-retryable exception, or the re-raised
`last_exception`), the number of invocations of `func`, and the list of
backoff delays slept (`base_delay * 2 ** attempt`, slept after every
retryable failure — including the final one, as in the source). -/
def retryAux (func : Nat → CallResult T) (retryable : PyExc → Bool) (baseDelay : ℚ) :
    Nat → Nat → Option PyExc → List ℚ → CallResult T × Nat × List ℚ
  | 0, i, last, delays => (raiseLast last, i, delays)
  | remaining + 1, i, _last, delays =>
    match func i with
    | .ok v => (.ok v, i + 1, delays)
    | .exc e =>
      if retryable e then
        retryAux func retryable baseDelay remaining (i + 1) (some e)
          (delays ++ [baseDelay * 2 ^ i])
      else
        (.exc e, i + 1, delays)

/-- `retry_with_backoff(func, max_retries=maxRetries, base_delay=baseDelay,
retryable_exceptions=retryable)` from `src/services/retry.py`. -/
def retryWithBackoff (retryable : PyExc → Bool) (maxRetries : Nat) (baseDelay : ℚ)
    (func : Nat → CallResult T) : CallResult T × Nat × List ℚ :=
  retryAux func retryable baseDelay maxRetries 0 none []

section RetryLemmas

variable {T : Type}

/-- If the callable fails retryably on the `k` invocations starting at `i`
and then succeeds, the loop (with more than `k` iterations left) returns the
success after `i + k + 1` total invocations. -/
theorem retryAux_succeeds_after (func : Nat → CallResult T) (retryable : PyExc → Bool)
    (baseDelay : ℚ) (v : T) :
    ∀ (k remaining i : Nat) (last : Option PyExc) (delays : List ℚ),
      k < remaining →
      (∀ j, j < k → ∃ e, func (i + j) = .exc e ∧ retryable e = true) →
      func (i + k) = .ok v →
      (retryAux func retryable baseDelay remaining i last delays).1 = .ok v ∧
      (retryAux func retryable baseDelay remaining i last delays).2.1 = i + k + 1 := by
  intro k
  induction k with
  | zero =>
    intro remaining i last delays hk _ hok
    obtain ⟨r, rfl⟩ := Nat.exists_eq_succ_of_ne_zero (Nat.pos_iff_ne_zero.mp hk)
    simp only [retryAux]
    rw [show i + 0 = i from rfl] at hok
    rw [hok]
    exact ⟨rfl, rfl⟩
  | succ k ih =>
    intro remaining i last delays hk hfail hok
    obtain ⟨r, rfl⟩ := Nat.exists_eq_succ_of_ne_zero
      (Nat.pos_iff_ne_zero.mp (Nat.lt_of_le_of_lt (Nat.zero_le _) hk))
    obtain ⟨e0, he0, hr0⟩ := hfail 0 (Nat.succ_pos k)
    rw [show i + 0 = i from rfl] at he0
    simp only [retryAux, he0, hr0, if_true]
    have hrec := ih r (i + 1) (some e0) (delays ++ [baseDelay * 2 ^ i])
      (Nat.lt_of_succ_lt_succ hk)
      (fun j hj => by
        have := hfail (j + 1) (Nat.succ_lt_succ hj)
        rwa [show i + (j + 1) = i + 1 + j by omega] at this)
      (by rwa [show i + 1 + k = i + (k + 1) by omega])
    refine ⟨hrec.1, ?_⟩
    rw [hrec.2]
    omega

/-- If the callable fails retryably on every one of the `remaining`
invocations starting at `i`, the loop makes exactly `remaining` further
invocations and re-raises the exception of the last one unchanged. -/
theorem retryAux_exhausts (func : Nat → CallResult T) (retryable : PyExc → Bool)
    (baseDelay : ℚ) :
    ∀ (remaining i : Nat) (last : Option PyExc) (delays : List ℚ),
      (∀ j, j < remaining → ∃ e, func (i + j) = .exc e ∧ retryable e = true) →
      (retryAux func retryable baseDelay remaining i last delays).2.1 = i + remaining ∧
      (∀ e, 0 < remaining → func (i + remaining - 1) = .exc e →
        (retryAux func retryable baseDelay remaining i last delays).1 = .exc e) := by
  intro remaining
  induction remaining with
  | zero =>
    intro i last delays _
    exact ⟨rfl, fun e h => absurd h (Nat.lt_irrefl 0)⟩
  | succ r ih =>
    intro i last delays hfail
    obtain ⟨e0, he0, hr0⟩ := hfail 0 (Nat.succ_pos r)
    rw [show i + 0 = i from rfl] at he0
    simp only [retryAux, he0, hr0, if_true]
    have hrec := ih (i + 1) (some e0) (delays ++ [baseDelay * 2 ^ i])
      (fun j hj => by
        have := hfail (j + 1) (Nat.succ_lt_succ hj)
        rwa [show i + (j + 1) = i + 1 + j by omega] at this)
    refine ⟨by rw [hrec.1]; omega, ?_⟩
    intro e _ hlast
    rcases Nat.eq_zero_or_pos r with hr | hr
    · subst hr
      rw [show i + 1 - 1 = i by omega] at hlast
      rw [he0] at hlast
      cases hlast
      simp only [retryAux, raiseLast]
    · exact hrec.2 e hr (by rwa [show i + 1 + r - 1 = i + (r + 1) - 1 by omega])

end RetryLemmas

/-- C3: an async callable that fails with a retryable failure kind exactly
`k` times and then succeeds is, for `k < max_retries`, invoked exactly
`k + 1` times and its success value returned; a callable failing retryably on
at least `max_retries` consecutive attempts is invoked exactly `max_retries`
times, after which the last retryable failure is re-raised unchanged (no
dedicated retries-exhausted failure kind exists). -/
theorem retry_attempt_accounting {T : Type} (func : Nat → CallResult T)
    (retryable : PyExc → Bool) (maxRetries k : Nat) (baseDelay : ℚ) (v : T) :
    (k < maxRetries →
      (∀ j, j < k → ∃ e, func j = .exc e ∧ retryable e = true) →
      func k = .ok v →
      (retryWithBackoff retryable maxRetries baseDelay func).1 = .ok v ∧
      (retryWithBackoff retryable maxRetries baseDelay func).2.1 = k + 1) ∧
    ((∀ j, j < maxRetries → ∃ e, func j = .exc e ∧ retryable e = true) →
      (retryWithBackoff retryable maxRetries baseDelay func).2.1 = maxRetries ∧
      (∀ e, 0 < maxRetries → func (maxRetries - 1) = .exc e →
        (retryWithBackoff retryable maxRetries baseDelay func).1 = .exc e)) := by
  constructor
  · intro hk hfail hok
    have h := retryAux_succeeds_after func retryable baseDelay v k maxRetries 0 none [] hk
      (by simpa using hfail) (by simpa using hok)
    simpa [retryWithBackoff] using h
  · intro hfail
    have h := retryAux_exhausts func retryable baseDelay maxRetries 0 none []
      (by simpa using hfail)
    simpa [retryWithBackoff] using h

/-- Witness for C3 at concrete inputs: two timeouts then a success returns
the success after 3 invocations; three straight timeouts exhaust
`max_retries = 3` and re-raise the third timeout itself. -/
theorem retry_attempt_accounting_witness :
    ((retryWithBackoff defaultRetryable 3 1
        (fun n => if n < 2 then .exc (.aiTimeout "slow") else .ok "done")).1 = .ok "done" ∧
      (retryWithBackoff defaultRetryable 3 1
        (fun n => if n < 2 then .exc (.aiTimeout "slow") else .ok "done")).2.1 = 2 + 1) ∧
    ((retryWithBackoff defaultRetryable 3 1
        (fun _ => (.exc (.aiTimeout "slow") : CallResult String))).2.1 = 3 ∧
      (retryWithBackoff defaultRetryable 3 1
        (fun _ => (.exc (.aiTimeout "slow") : CallResult String))).1 =
        .exc (.aiTimeout "slow")) := by
  constructor
  · exact (retry_attempt_accounting
      (fun n => if n < 2 then .exc (.aiTimeout "slow") else .ok "done")
      defaultRetryable 3 2 1 "done").1
      (by decide)
      (by intro j hj; interval_cases j <;> exact ⟨.aiTimeout "slow", rfl, rfl⟩)
      rfl
  · have h := (retry_attempt_accounting
      (fun _ => (.exc (.aiTimeout "slow") : CallResult String))
      defaultRetryable 3 0 1 "unused").2
      (by intro j hj; exact ⟨.aiTimeout "slow", rfl, rfl⟩)
    exact ⟨h.1, h.2 (.aiTimeout "slow") (by decide) rfl⟩

/-- C4: a callable whose first failure is of a non-retryable kind propagates
that failure on the first occurrence: exactly one invocation, no backoff
delay slept, no retry consumed. -/
theorem retry_nonretryable_propagates_immediately {T : Type} (func : Nat → CallResult T)
    (retryable : PyExc → Bool) (maxRetries : Nat) (baseDelay : ℚ) (e : PyExc)
    (hfirst : func 0 = .exc e) (hnr : retryable e = false) (hpos : 0 < maxRetries) :
    retryWithBackoff retryable maxRetries baseDelay func = (.exc e, 1, []) := by
  obtain ⟨r, rfl⟩ := Nat.exists_eq_succ_of_ne_zero (Nat.pos_iff_ne_zero.mp hpos)
  simp [retryWithBackoff, retryAux, hfirst, hnr]

/-- Witness for C4: a validation failure (outside the default retryable set)
on the first call comes back after exactly one invocation with an empty
delay list. -/
theorem retry_nonretryable_propagates_immediately_witness :
    retryWithBackoff defaultRetryable 3 1
      (fun _ => (.exc (.validationError "bad schema" "raw") : CallResult String)) =
      (.exc (.validationError "bad schema" "raw"), 1, []) :=
  retry_nonretryable_propagates_immediately
    (fun _ => (.exc (.validationError "bad schema" "raw") : CallResult String))
    defaultRetryable 3 1 (.validationError "bad schema" "raw") rfl rfl (by decide)

/-! ## Enums (`src/models/enums.py`) and extraction schemas (`src/prompts/schemas.py`) -/

/-- The 10-value closed `ClauseType` enum. -/
inductive ClauseType where
  | PENALTY | AUTO_RENEWAL | CONFIDENTIALITY | TERMINATION | LIABILITY
  | INDEMNIFICATION | GOVERNING_LAW | PAYMENT_TERMS | FORCE_MAJEURE | OTHER
deriving DecidableEq, Repr

/-- `member.value` for `ClauseType` (a `str`-valued enum). -/
def ClauseType.value : ClauseType → String
  | .PENALTY => "PENALTY"
  | .AUTO_RENEWAL => "AUTO_RENEWAL"
  | .CONFIDENTIALITY => "CONFIDENTIALITY"
  | .TERMINATION => "TERMINATION"
  | .LIABILITY => "LIABILITY"
  | .INDEMNIFICATION => "INDEMNIFICATION"
  | .GOVERNING_LAW => "GOVERNING_LAW"
  | .PAYMENT_TERMS => "PAYMENT_TERMS"
  | .FORCE_MAJEURE => "FORCE_MAJEURE"
  | .OTHER => "OTHER"

/-- All members of `ClauseType`, in declaration order. -/
def ClauseType.members : List ClauseType :=
  [.PENALTY, .AUTO_RENEWAL, .CONFIDENTIALITY, .TERMINATION, .LIABILITY,
   .INDEMNIFICATION, .GOVERNING_LAW, .PAYMENT_TERMS, .FORCE_MAJEURE, .OTHER]

/-- The 4-value closed `RiskLevel` enum. -/
inductive RiskLevel where
  | LOW | MEDIUM | HIGH | CRITICAL
deriving DecidableEq, Repr

/-- `member.value` for `RiskLevel`. -/
def RiskLevel.value : RiskLevel → String
  | .LOW => "LOW"
  | .MEDIUM => "MEDIUM"
  | .HIGH => "HIGH"
  | .CRITICAL => "CRITICAL"

/-- All members of `RiskLevel`, in declaration order. -/
def RiskLevel.members : List RiskLevel := [.LOW, .MEDIUM, .HIGH, .CRITICAL]

/-- `_VALID_CLAUSE_TYPES = {member.value for member in ClauseType}`
(`src/prompts/schemas.py`), kept as a list — only membership is used. -/
def validClauseTypes : List String := ClauseType.members.map ClauseType.value

/-- `_VALID_RISK_LEVELS = {member.value for member in RiskLevel}`. -/
def validRiskLevels : List String := RiskLevel.members.map RiskLevel.value

/-- `ClauseType(s)`: the enum constructor used by the orchestrator; raises
`ValueError` (here `none`) on a string outside the enum. -/
def clauseTypeOfValue (s : String) : Option ClauseType :=
  ClauseType.members.find? (fun m => m.value == s)

/-- `RiskLevel(s)`: the enum constructor used by the orchestrator. -/
def riskLevelOfValue (s : String) : Option RiskLevel :=
  RiskLevel.members.find? (fun m => m.value == s)

/-- One entry of the `clauses` array, already coerced to its field types:
the pydantic model `ClauseExtraction`.  `confidence_score` is a Python
float modelled as `ℚ`. -/
structure ClauseExtraction where
  clause_type : String
  risk_level : String
  title : String
  summary : String
  original_text : String
  page_number : Option Int := none
  confidence_score : ℚ
deriving DecidableEq, Repr

/-- The field-constraint checks pydantic runs for one `ClauseExtraction`:
`Field(min_length=1)` on `title`/`summary`/`original_text`,
`Field(ge=0.0, le=1.0)` on `confidence_score`, and the two
`@field_validator` methods checking enum membership.  The error text carried
mirrors the `ValueError` messages of `schemas.py`. -/
def validateClauseExtraction (c : ClauseExtraction) : Except String ClauseExtraction :=
  if ¬ (validClauseTypes.contains c.clause_type) then
    .error ("Invalid clause_type '" ++ c.clause_type ++ "'")
  else if ¬ (validRiskLevels.contains c.risk_level) then
    .error ("Invalid risk_level '" ++ c.risk_level ++ "'")
  else if c.title.length < 1 then
    .error "title: String should have at least 1 character"
  else if c.summary.length < 1 then
    .error "summary: String should have at least 1 character"
  else if c.original_text.length < 1 then
    .error "original_text: String should have at least 1 character"
  else if ¬ (0 ≤ c.confidence_score ∧ c.confidence_score ≤ 1) then
    .error "confidence_score: value out of range [0.0, 1.0]"
  else
    .ok c

/-- The pydantic model `ExtractionMetadata`. -/
structure ExtractionMetadata where
  contract_type : String
  parties_involved : List String
  effective_date : Option String := none
  total_clauses_found : Int
deriving DecidableEq, Repr

/-- `Field(ge=0)` on `total_clauses_found`. -/
def validateMetadata (m : ExtractionMetadata) : Except String ExtractionMetadata :=
  if m.total_clauses_found < 0 then
    .error "total_clauses_found: value must be >= 0"
  else
    .ok m

/-- The pydantic model `AIExtractionResponse`, already coerced to its field
types. -/
structure AIExtractionResponse where
  is_contract : Bool
  language : String
  clauses : List ClauseExtraction
  metadata : ExtractionMetadata
deriving DecidableEq, Repr

/-- Field validation of the `clauses` array entry by entry: the first
failing entry fails the array. -/
def validateClauses : List ClauseExtraction → Except String (List ClauseExtraction)
  | [] => .ok []
  | c :: cs =>
    match validateClauseExtraction c with
    | .error e => .error e
    | .ok v =>
      match validateClauses cs with
      | .error e => .error e
      | .ok vs => .ok (v :: vs)

/-- `AIExtractionResponse.model_validate` on a structurally well-typed
payload: field validation of every clause and of the metadata, then the
`@model_validator(mode="after")` cross-field rule
`check_clauses_consistent_with_contract_flag` rejecting a non-contract
payload with a non-empty clause list.  A field-constraint or cross-field
violation fails the whole response. -/
def modelValidateResponse (r : AIExtractionResponse) : Except String AIExtractionResponse :=
  match validateClauses r.clauses with
  | .error e => .error e
  | .ok _ =>
    match validateMetadata r.metadata with
    | .error e => .error e
    | .ok _ =>
      if r.is_contract = false ∧ r.clauses ≠ [] then
        .error "Document marked as non-contract but clauses were returned."
      else
        .ok r

/-- `True` exactly when an `Except` is a normal value. -/
def exceptOk {ε α : Type} : Except ε α → Bool
  | .ok _ => true
  | .error _ => false

/-- The spec-side description of one well-formed clause entry: enum
membership for `clause_type` and `risk_level`, non-empty `title`, `summary`
and `original_text`, and `confidence_score` in the closed interval
`[0.0, 1.0]`. -/
def goodClause (c : ClauseExtraction) : Prop :=
  c.clause_type ∈ validClauseTypes ∧ c.risk_level ∈ validRiskLevels ∧
  c.title ≠ "" ∧ c.summary ≠ "" ∧ c.original_text ≠ "" ∧
  0 ≤ c.confidence_score ∧ c.confidence_score ≤ 1

instance (c : ClauseExtraction) : Decidable (goodClause c) := by
  unfold goodClause; infer_instance

theorem string_length_eq_zero_iff (s : String) : s.length = 0 ↔ s = "" := by
  cases s with
  | mk data => simp [String.length, String.ext_iff]

theorem validateClause_ok_iff (c : ClauseExtraction) :
    validateClauseExtraction c = .ok c ↔ goodClause c := by
  unfold validateClauseExtraction goodClause
  have h1 : (validClauseTypes.contains c.clause_type) = true ↔
      c.clause_type ∈ validClauseTypes := by
    simp [List.contains, List.elem_iff]
  have h2 : (validRiskLevels.contains c.risk_level) = true ↔
      c.risk_level ∈ validRiskLevels := by
    simp [List.contains, List.elem_iff]
  have h3 : c.title.length < 1 ↔ c.title = "" := by
    rw [Nat.lt_one_iff, string_length_eq_zero_iff]
  have h4 : c.summary.length < 1 ↔ c.summary = "" := by
    rw [Nat.lt_one_iff, string_length_eq_zero_iff]
  have h5 : c.original_text.length < 1 ↔ c.original_text = "" := by
    rw [Nat.lt_one_iff, string_length_eq_zero_iff]
  split_ifs with g1 g2 g3 g4 g5 g6 <;> simp_all

theorem validateClause_ok_or_error (c : ClauseExtraction) :
    validateClauseExtraction c = .ok c ∨ ∃ m, validateClauseExtraction c = .error m := by
  unfold validateClauseExtraction
  split_ifs <;> simp

theorem validateClauses_all_good (l : List ClauseExtraction)
    (h : ∀ c ∈ l, goodClause c) : validateClauses l = .ok l := by
  induction l with
  | nil => rfl
  | cons c cs ih =>
    unfold validateClauses
    rw [(validateClause_ok_iff c).mpr (h c (List.mem_cons_self c cs)),
      ih (fun d hd => h d (List.mem_cons_of_mem c hd))]

theorem validateClauses_bad (l : List ClauseExtraction) (c : ClauseExtraction)
    (hc : c ∈ l) (hbad : ¬ goodClause c) :
    exceptOk (validateClauses l) = false := by
  induction l with
  | nil => cases hc
  | cons d ds ih =>
    unfold validateClauses
    rcases validateClause_ok_or_error d with hok | ⟨m, herr⟩
    · rcases List.mem_cons.mp hc with rfl | hmem
      · exact absurd ((validateClause_ok_iff c).mp hok) hbad
      · rw [hok]
        have hds := ih hmem
        cases hds2 : validateClauses ds with
        | ok v => rw [hds2] at hds; exact absurd hds (by simp [exceptOk])
        | error e => rfl
    · rw [herr]
      rfl

/-- C7: a payload with `is_contract = false` and a non-empty `clauses` array
is rejected by the Response Validator — never silently corrected — even when
every individual clause entry is well-formed. -/
theorem non_contract_with_clauses_rejected (r : AIExtractionResponse)
    (hflag : r.is_contract = false) (hne : r.clauses ≠ []) :
    exceptOk (modelValidateResponse r) = false := by
  unfold modelValidateResponse
  cases hcl : validateClauses r.clauses with
  | error e => rfl
  | ok v =>
    cases hmd : validateMetadata r.metadata with
    | error e => rfl
    | ok m =>
      rw [if_pos ⟨hflag, hne⟩]
      rfl

/-- Witness for C7: a non-contract payload carrying one fully well-formed
clause entry fails validation. -/
theorem non_contract_with_clauses_rejected_witness :
    goodClause
      { clause_type := "PENALTY", risk_level := "LOW", title := "t",
        summary := "s", original_text := "o", confidence_score := 1 } ∧
    exceptOk (modelValidateResponse
      { is_contract := false, language := "English",
        clauses := [{ clause_type := "PENALTY", risk_level := "LOW", title := "t",
                      summary := "s", original_text := "o", confidence_score := 1 }],
        metadata := { contract_type := "NDA", parties_involved := ["A", "B"],
                      total_clauses_found := 1 } }) = false := by
  refine ⟨by decide, ?_⟩
  exact non_contract_with_clauses_rejected _ rfl (by decide)

/-- C8: a clause entry violating any of its field constraints
(`confidence_score` outside `[0.0, 1.0]`, `clause_type` outside the 10-value
enum, `risk_level` outside the 4-value enum, or an empty `title`, `summary`
or `original_text`) fails validation of the whole response; and when every
clause entry satisfies all of these constraints, the clause field checks all
pass. -/
theorem clause_field_constraints (r : AIExtractionResponse) (c : ClauseExtraction) :
    (c ∈ r.clauses → ¬ goodClause c →
      exceptOk (modelValidateResponse r) = false) ∧
    ((∀ d ∈ r.clauses, goodClause d) → validateClauses r.clauses = .ok r.clauses) := by
  constructor
  · intro hc hbad
    unfold modelValidateResponse
    have h := validateClauses_bad r.clauses c hc hbad
    cases hcl : validateClauses r.clauses with
    | error e => rfl
    | ok v => rw [hcl] at h; exact absurd h (by simp [exceptOk])
  · exact validateClauses_all_good r.clauses

/-- Witness for C8: a response whose only clause has `confidence_score`
`1.5` fails validation, and the same response with the score brought back
into `[0.0, 1.0]` passes the clause field checks. -/
theorem clause_field_constraints_witness :
    exceptOk (modelValidateResponse
      { is_contract := true, language := "English",
        clauses := [{ clause_type := "PENALTY", risk_level := "LOW", title := "t",
                      summary := "s", original_text := "o", confidence_score := 2 }],
        metadata := { contract_type := "NDA", parties_involved := ["A"],
                      total_clauses_found := 1 } }) = false ∧
    validateClauses
      [{ clause_type := "PENALTY", risk_level := "LOW", title := "t",
         summary := "s", original_text := "o",
         confidence_score := (1 : ℚ) }] =
      .ok [{ clause_type := "PENALTY", risk_level := "LOW", title := "t",
             summary := "s", original_text := "o", confidence_score := 1 }] := by
  constructor
  · exact (clause_field_constraints
      { is_contract := true, language := "English",
        clauses := [{ clause_type := "PENALTY", risk_level := "LOW", title := "t",
                      summary := "s", original_text := "o", confidence_score := 2 }],
        metadata := { contract_type := "NDA", parties_involved := ["A"],
                      total_clauses_found := 1 } }
      { clause_type := "PENALTY", risk_level := "LOW", title := "t",
        summary := "s", original_text := "o", confidence_score := 2 }).1
      (by decide) (by decide)
  · exact (clause_field_constraints
      { is_contract := true, language := "English",
        clauses := [{ clause_type := "PENALTY", risk_level := "LOW", title := "t",
                      summary := "s", original_text := "o", confidence_score := 1 }],
        metadata := { contract_type := "NDA", parties_involved := ["A"],
                      total_clauses_found := 1 } }
      { clause_type := "PENALTY", risk_level := "LOW", title := "t",
        summary := "s", original_text := "o", confidence_score := 1 }).2
      (by decide)

/-! ## Markdown-fence stripping (`validate_ai_response`, `src/prompts/clause_extraction.py`)

The preprocessing of the raw provider text is modelled over `List Char`.
The two `re.sub` calls are simple anchored patterns and are embedded as
character-list functions with the same leftmost/greedy semantics. -/

/-- The whitespace class of Python's `str.strip()` and of `\s` in `re`
(for the ASCII range relevant here). -/
def pyIsSpace (c : Char) : Bool :=
  c == ' ' || c == '\t' || c == '\n' || c == '\r' || c == '\x0b' || c == '\x0c'

/-- The backtick character, written by code point to keep it out of the
source text. -/
def tickChar : Char := Char.ofNat 96

def isTick (c : Char) : Bool := c == tickChar

/-- `'\x7b'`, the opening curly brace of a JSON object text. -/
def lbraceChar : Char := Char.ofNat 123

/-- `'\x7d'`, the closing curly brace of a JSON object text. -/
def rbraceChar : Char := Char.ofNat 125

/-- Python `raw.strip()`. -/
def pyStrip (l : List Char) : List Char :=
  ((l.dropWhile pyIsSpace).reverse.dropWhile pyIsSpace).reverse

/-- Matcher for three backticks followed by nothing but whitespace up to the
end of the text (the tail of the closing-fence pattern). -/
def closingTicks : List Char → Bool
  | c1 :: c2 :: c3 :: rest => isTick c1 && isTick c2 && isTick c3 && rest.all pyIsSpace
  | _ => false

/-- Whether the closing-fence regex matches the suffix starting
here: an optional leading newline, three backticks, then only whitespace to
the end (Python `$` also matching just before a final newline changes
nothing, since such a newline is itself whitespace swallowed greedily). -/
def closingMatch (l : List Char) : Bool :=
  match l with
  | c :: rest => if c = '\n' then closingTicks rest else closingTicks l
  | [] => false

/-- The closing-fence substitution: delete the suffix at the leftmost
position where the closing pattern matches (a match always extends to the
end of the text, so at most one substitution occurs). -/
def closingSub : List Char → List Char
  | [] => []
  | c :: cs => if closingMatch (c :: cs) then [] else c :: closingSub cs

/-- The opening-fence substitution, anchored at the start: consume three
backticks, then greedily the optional `json` language tag, then any
whitespace run (this folds the regex's `\s*` and trailing optional newline
together, as newline is whitespace). -/
def openingSub (l : List Char) : List Char :=
  if l.take 7 = ("```json").toList then (l.drop 7).dropWhile pyIsSpace
  else if l.take 3 = ("```").toList then (l.drop 3).dropWhile pyIsSpace
  else l

/-- The preprocessing of `validate_ai_response` before JSON parsing:
`text = raw_response.strip()`, then, only when the stripped text starts with
three backticks, the opening- and closing-fence substitutions. -/
def stripFences (raw : List Char) : List Char :=
  let text := pyStrip raw
  if text.take 3 = ("```").toList then closingSub (openingSub text) else text

theorem dropWhile_eq_self_of_head {l : List Char} {c : Char}
    (hc : l.head? = some c) (hws : pyIsSpace c = false) :
    l.dropWhile pyIsSpace = l := by
  cases l with
  | nil => cases hc
  | cons d ds =>
    cases hc
    simp [List.dropWhile, hws]

theorem pyStrip_eq_self {l : List Char} {c d : Char}
    (hc : l.head? = some c) (hcws : pyIsSpace c = false)
    (hd : l.getLast? = some d) (hdws : pyIsSpace d = false) :
    pyStrip l = l := by
  unfold pyStrip
  rw [dropWhile_eq_self_of_head hc hcws,
    dropWhile_eq_self_of_head (by rwa [List.head?_reverse]) hdws,
    List.reverse_reverse]

theorem closingTicks_false_of_getLast {l : List Char} {c : Char}
    (hlen : 4 ≤ l.length) (hlast : l.getLast? = some c) (hws : pyIsSpace c = false) :
    closingTicks l = false := by
  match l with
  | [] => simp at hlen
  | [c1] => simp at hlen
  | [c1, c2] => simp at hlen
  | [c1, c2, c3] => simp at hlen
  | c1 :: c2 :: c3 :: c4 :: rest =>
    have hmem : c ∈ c4 :: rest := by
      have h4 : (c4 :: rest) ≠ [] := by simp
      have heq : (c1 :: c2 :: c3 :: c4 :: rest).getLast? = (c4 :: rest).getLast? := by
        rw [show c1 :: c2 :: c3 :: c4 :: rest = [c1, c2, c3] ++ c4 :: rest from rfl,
          List.getLast?_append_of_ne_nil _ h4]
      rw [heq] at hlast
      exact List.mem_of_mem_getLast? hlast
    have hall : (c4 :: rest).all pyIsSpace = false := by
      rcases hx : (c4 :: rest).all pyIsSpace with _ | _
      · rfl
      · exact absurd ((List.all_eq_true.mp hx) c hmem) (by rw [hws]; simp)
    simp [closingTicks, hall]

theorem closingMatch_false_of_getLast {l : List Char} {c : Char}
    (hlen : 5 ≤ l.length) (hlast : l.getLast? = some c) (hws : pyIsSpace c = false) :
    closingMatch l = false := by
  match l with
  | [] => simp at hlen
  | d :: rest =>
    have hstep : closingMatch (d :: rest) =
        if d = '\n' then closingTicks rest else closingTicks (d :: rest) := rfl
    rw [hstep]
    have hrlen : 4 ≤ rest.length := by
      simp only [List.length_cons] at hlen; omega
    by_cases hd : d = '\n'
    · rw [if_pos hd]
      apply closingTicks_false_of_getLast hrlen _ hws
      have hne : rest ≠ [] := by
        intro h; rw [h] at hrlen; simp at hrlen
      rw [show d :: rest = [d] ++ rest from rfl,
        List.getLast?_append_of_ne_nil _ hne] at hlast
      exact hlast
    · rw [if_neg hd]
      exact closingTicks_false_of_getLast (by omega) hlast hws

/-- The closing-fence substitution removes exactly the trailing
`"\n```"` appended after an arbitrary text `J`: no position inside `J` can
match, because the final three backticks would then have to be whitespace. -/
theorem closingSub_append_fence (J : List Char) :
    closingSub (J ++ '\n' :: ("```").toList) = J := by
  induction J with
  | nil => decide
  | cons d ds ih =>
    have hlast : ((d :: ds) ++ '\n' :: ("```").toList).getLast? = some tickChar := by
      rw [List.getLast?_append_of_ne_nil _ (by simp)]
      decide
    have hfalse : closingMatch ((d :: ds) ++ '\n' :: ("```").toList) = false := by
      apply closingMatch_false_of_getLast _ hlast (by decide)
      have h3 : (("```").toList : List Char).length = 3 := by decide
      simp only [List.length_append, List.length_cons]
      omega
    rw [show (d :: ds) ++ '\n' :: ("```").toList = d :: (ds ++ '\n' :: ("```").toList)
        from rfl] at hfalse ⊢
    have hstep : closingSub (d :: (ds ++ '\n' :: ("```").toList)) =
        if closingMatch (d :: (ds ++ '\n' :: ("```").toList)) then []
        else d :: closingSub (ds ++ '\n' :: ("```").toList) := rfl
    rw [hstep, hfalse, if_neg (by simp), ih]

theorem openingSub_json (R : List Char) :
    openingSub (("```json").toList ++ R) = R.dropWhile pyIsSpace := by
  unfold openingSub
  rw [if_pos (List.take_left' (by decide))]
  rw [List.drop_left' (by decide)]

theorem openingSub_plain (R : List Char) :
    openingSub (("```").toList ++ '\n' :: R) = R.dropWhile pyIsSpace := by
  unfold openingSub
  have hnl : pyIsSpace '\n' = true := by decide
  rw [if_neg, if_pos (List.take_left' (by decide))]
  · rw [List.drop_left' (by decide)]
    simp [List.dropWhile, hnl]
  · intro h
    have h3 : (("```").toList ++ '\n' :: R).take 7 =
        ("```").toList ++ ('\n' :: R).take 4 := by
      rw [show (7 : Nat) = ("```").toList.length + 4 from rfl, List.take_append]
    rw [h3] at h
    have h4 := congrArg (fun l => l.get? 3) h
    simp only [List.get?] at h4
    cases R <;> simp at h4

/-- On a bare JSON object text (first character `\x7b`, last character
`\x7d`), the preprocessing of `validate_ai_response` is the identity:
nothing is stripped and no fence branch is entered. -/
theorem stripFences_bare (J : List Char)
    (hhead : J.head? = some lbraceChar) (hlast : J.getLast? = some rbraceChar) :
    stripFences J = J := by
  unfold stripFences
  rw [pyStrip_eq_self hhead (by decide) hlast (by decide)]
  rw [if_neg]
  intro h
  cases J with
  | nil => cases hhead
  | cons c cs =>
    cases hhead
    have h0 := congrArg (fun l => l.head?) h
    simp only [List.head?] at h0
    cases cs <;> simp [List.take] at h0 <;> exact absurd h0 (by decide)

theorem getLast?_ends_fence (X : List Char) :
    (X ++ '\n' :: ("```").toList).getLast? = some tickChar := by
  rw [List.getLast?_append_of_ne_nil _ (by simp)]
  decide

theorem dropWhile_cons_nl (R : List Char) :
    ('\n' :: R).dropWhile pyIsSpace = R.dropWhile pyIsSpace := by
  have hnl : pyIsSpace '\n' = true := by decide
  simp [List.dropWhile, hnl]

/-- Wrapping a JSON object text in a markdown code fence (with either an
empty language tag or the tag `json`) and preprocessing recovers the bare
text exactly. -/
theorem stripFences_wrapped (J : List Char) (tag : List Char)
    (htag : tag = [] ∨ tag = ("json").toList)
    (hhead : J.head? = some lbraceChar) (hlast : J.getLast? = some rbraceChar) :
    stripFences (("```").toList ++ tag ++ '\n' :: (J ++ '\n' :: ("```").toList)) = J := by
  obtain ⟨c, cs, rfl⟩ : ∃ c cs, J = c :: cs := by
    cases J with
    | nil => cases hhead
    | cons c cs => exact ⟨c, cs, rfl⟩
  have hc : c = lbraceChar := by
    simp only [List.head?] at hhead
    cases hhead
    rfl
  subst hc
  have hdrop : ((lbraceChar :: cs) ++ '\n' :: ("```").toList).dropWhile pyIsSpace =
      (lbraceChar :: cs) ++ '\n' :: ("```").toList := by
    apply dropWhile_eq_self_of_head
    · rfl
    · decide
  have hre : ∀ tg : List Char,
      ("```").toList ++ tg ++ '\n' :: ((lbraceChar :: cs) ++ '\n' :: ("```").toList) =
      (("```").toList ++ tg ++ '\n' :: (lbraceChar :: cs)) ++ '\n' :: ("```").toList := by
    intro tg
    simp [List.append_assoc]
  rcases htag with rfl | rfl
  · unfold stripFences
    have hstrip : pyStrip (("```").toList ++ [] ++
        '\n' :: ((lbraceChar :: cs) ++ '\n' :: ("```").toList)) =
        ("```").toList ++ [] ++ '\n' :: ((lbraceChar :: cs) ++ '\n' :: ("```").toList) := by
      apply pyStrip_eq_self (c := tickChar) (d := tickChar)
      · rfl
      · decide
      · rw [hre, getLast?_ends_fence]
      · decide
    rw [hstrip, if_pos]
    · rw [show ("```").toList ++ [] ++
          '\n' :: ((lbraceChar :: cs) ++ '\n' :: ("```").toList) =
          ("```").toList ++ '\n' :: ((lbraceChar :: cs) ++ '\n' :: ("```").toList) by simp]
      rw [openingSub_plain, hdrop, closingSub_append_fence]
    · rfl
  · unfold stripFences
    have hstrip : pyStrip (("```").toList ++ ("json").toList ++
        '\n' :: ((lbraceChar :: cs) ++ '\n' :: ("```").toList)) =
        ("```").toList ++ ("json").toList ++
        '\n' :: ((lbraceChar :: cs) ++ '\n' :: ("```").toList) := by
      apply pyStrip_eq_self (c := tickChar) (d := tickChar)
      · rfl
      · decide
      · rw [hre, getLast?_ends_fence]
      · decide
    rw [hstrip, if_pos]
    · rw [show ("```").toList ++ ("json").toList ++
          '\n' :: ((lbraceChar :: cs) ++ '\n' :: ("```").toList) =
          ("```json").toList ++ ('\n' :: ((lbraceChar :: cs) ++ '\n' :: ("```").toList))
          from rfl]
      rw [openingSub_json, dropWhile_cons_nl, hdrop, closingSub_append_fence]
    · rfl

/-- C9: for a JSON object text `J` (first character `\x7b`, last character
`\x7d`), preprocessing the bare text and preprocessing the text wrapped in a
markdown code fence (an opening fence line with an optional `json` language
tag and a trailing closing fence) yield the identical character sequence, so
every downstream parser — in particular the two-pass JSON parse and schema
validation of `validate_ai_response` — produces equal results on both (or
fails identically). -/
theorem fenced_and_bare_parse_equal {α : Type} (parse : List Char → α)
    (J : List Char) (tag : List Char)
    (htag : tag = [] ∨ tag = ("json").toList)
    (hhead : J.head? = some lbraceChar) (hlast : J.getLast? = some rbraceChar) :
    parse (stripFences (("```").toList ++ tag ++ '\n' :: (J ++ '\n' :: ("```").toList))) =
      parse (stripFences J) := by
  rw [stripFences_wrapped J tag htag hhead hlast, stripFences_bare J hhead hlast]

/-- Witness for C9 at the concrete object text `\x7b"is_contract": true\x7d`
with the `json` language tag, the parser being the identity on the
preprocessed characters. -/
theorem fenced_and_bare_parse_equal_witness :
    (fun l => l) (stripFences (("```").toList ++ ("json").toList ++
      '\n' :: ((("\x7b\"is_contract\": true\x7d").toList) ++ '\n' :: ("```").toList))) =
      (fun l => l) (stripFences (("\x7b\"is_contract\": true\x7d").toList)) :=
  fenced_and_bare_parse_equal (fun l => l)
    (("\x7b\"is_contract\": true\x7d").toList) (("json").toList)
    (Or.inr rfl) (by decide) (by decide)

/-! ## Provider Client, Variant A (`AnthropicClient.complete`, `src/services/ai_client.py`) -/

/-- One `{role, content}` chat message dict. -/
structure ChatMessage where
  role : String
  content : String
deriving DecidableEq, Repr

/-- The `for msg in messages` loop of `AnthropicClient.complete`: `system`
starts as `""` and is assigned (not appended) each time a system-role
message is seen; every other message is appended to `non_system`. -/
def anthropicSplit (messages : List ChatMessage) : String × List ChatMessage :=
  messages.foldl
    (fun acc m => if m.role = "system" then (m.content, acc.2) else (acc.1, acc.2 ++ [m]))
    ("", [])

/-- The JSON request body `AnthropicClient.complete` posts to
`/v1/messages`; `system = none` means the key is absent. -/
structure AnthropicBody where
  model : String
  max_tokens : Nat
  messages : List ChatMessage
  system : Option String
deriving DecidableEq, Repr

/-- Construction of the request body in `AnthropicClient.complete`
(lines 38–53): the `system` key is added only when the accumulated `system`
string is truthy (non-empty). -/
def anthropicRequestBody (messages : List ChatMessage) (model : String) : AnthropicBody :=
  let p := anthropicSplit messages
  { model := model, max_tokens := 4096, messages := p.2,
    system := if p.1 ≠ "" then some p.1 else none }

/-- Spec-side description: the content of the last system-role message of
the sequence, if any. -/
def lastSystemContent (messages : List ChatMessage) : Option String :=
  (messages.reverse.find? (fun m => m.role == "system")).map (fun m => m.content)

theorem anthropicSplit_foldl_fst (messages : List ChatMessage) :
    ∀ acc : String × List ChatMessage,
      (messages.foldl
        (fun acc m =>
          if m.role = "system" then (m.content, acc.2) else (acc.1, acc.2 ++ [m]))
        acc).1 =
      ((messages.reverse.find? (fun m => m.role == "system")).map
        (fun m => m.content)).getD acc.1 := by
  induction messages with
  | nil => intro acc; rfl
  | cons m rest ih =>
    intro acc
    rw [List.foldl_cons, ih]
    rw [List.reverse_cons, List.find?_append]
    cases hfind : rest.reverse.find? (fun m => m.role == "system") with
    | some x => simp [Option.orElse]
    | none =>
      by_cases hrole : m.role = "system"
      · simp [Option.orElse, List.find?, hrole]
      · have : (m.role == "system") = false := by
          simp [hrole]
        simp [Option.orElse, List.find?, this, hrole]

theorem anthropicSplit_foldl_snd (messages : List ChatMessage) :
    ∀ acc : String × List ChatMessage,
      (messages.foldl
        (fun acc m =>
          if m.role = "system" then (m.content, acc.2) else (acc.1, acc.2 ++ [m]))
        acc).2 =
      acc.2 ++ messages.filter (fun m => !(m.role == "system")) := by
  induction messages with
  | nil => intro acc; simp
  | cons m rest ih =>
    intro acc
    rw [List.foldl_cons, ih]
    by_cases hrole : m.role = "system"
    · have hb : (m.role == "system") = true := by simp [hrole]
      simp [List.filter, hrole, hb]
    · have hb : (m.role == "system") = false := by simp [hrole]
      simp [List.filter, hrole, hb]

/-- C6 counterexample: with two system-role messages (contents `"a"` then
`"b"`), the built request body is identical to the body built without the
first system message at all — its content `"a"` appears neither in the
top-level `system` field (which holds only `"b"`) nor in the `messages`
list, so the system messages are not all merged into the field. -/
theorem anthropic_system_merge_counterexample :
    anthropicRequestBody
      [{ role := "system", content := "a" }, { role := "system", content := "b" },
       { role := "user", content := "u" }] "model-x" =
      anthropicRequestBody
        [{ role := "system", content := "b" }, { role := "user", content := "u" }]
        "model-x" ∧
    (anthropicRequestBody
      [{ role := "system", content := "a" }, { role := "system", content := "b" },
       { role := "user", content := "u" }] "model-x").system = some "b" ∧
    (anthropicRequestBody
      [{ role := "system", content := "a" }, { role := "system", content := "b" },
       { role := "user", content := "u" }] "model-x").messages =
      [{ role := "user", content := "u" }] := by
  refine ⟨?_, ?_, ?_⟩ <;> decide

/-- C6 amended: Variant A's request body carries, in its top-level `system`
field, the content of the *last* system-role message only — each system
message overwrites the previous candidate, so earlier system contents are
dropped from the request — with the field omitted when that content is
empty or no system message exists; and exactly the non-system messages are
sent in the body's `messages` list. -/
theorem anthropic_body_last_system_wins (messages : List ChatMessage) (model : String) :
    (anthropicRequestBody messages model).messages =
      messages.filter (fun m => !(m.role == "system")) ∧
    (anthropicRequestBody messages model).system =
      (lastSystemContent messages).bind
        (fun c => if c = "" then none else some c) := by
  constructor
  · have h := anthropicSplit_foldl_snd messages ("", [])
    simp only [anthropicRequestBody, anthropicSplit]
    rw [h]
    rfl
  · have h := anthropicSplit_foldl_fst messages ("", [])
    simp only [anthropicRequestBody, anthropicSplit, lastSystemContent]
    rw [h]
    cases hfind : messages.reverse.find? (fun m => m.role == "system") with
    | none => simp
    | some x =>
      by_cases hx : x.content = ""
      · simp [hx]
      · simp [hx]

/-! ## Analysis Orchestrator (`AnalysisService.analyze_document`, `src/services/analysis_service.py`)

The database and provider collaborators are abstracted into an environment:
`docs`/`templates` give the rows the two `select` queries run over,
`aiComplete` gives the behaviour of `self._ai.complete` on its n-th
invocation, and `validate` gives the behaviour of `validate_ai_response`
(whose JSON-parsing stage depends on the standard-library parser and is
treated at this interface).  The returned trace records the terminal
`Analysis` row (or the pre-creation exception), the `Clause` rows added to
the session, and the counts of provider calls, `Analysis` rows created and
commits. -/

/-- The `Document` model: `id`, `tenant_id` and nullable `extracted_text`. -/
structure Document where
  id : Nat
  tenant_id : Nat
  extracted_text : Option String
deriving DecidableEq, Repr

/-- The `AnalysisTemplate` model: `id`, `tenant_id` and nullable
`prompt_override`. -/
structure AnalysisTemplate where
  id : Nat
  tenant_id : Nat
  prompt_override : Option String
deriving DecidableEq, Repr

/-- The `AnalysisStatus` enum. -/
inductive AnalysisStatus where
  | PENDING | PROCESSING | COMPLETED | FAILED | TIMED_OUT
deriving DecidableEq, Repr

/-- The fields of the `Analysis` row that the orchestrator writes
(timestamps are reduced to whether `completed_at` was set). -/
structure AnalysisRec where
  document_id : Nat
  tenant_id : Nat
  template_id : Option Nat
  status : AnalysisStatus
  model_provider : String
  model_name : String
  completed_at_set : Bool
  error_message : Option String
  retry_count : Nat
deriving DecidableEq, Repr

/-- A `Clause` row added to the session by the success branch. -/
structure ClauseRec where
  clause_type : ClauseType
  risk_level : RiskLevel
  title : String
  summary : String
  original_text : String
  page_number : Option Int
  confidence_score : ℚ
deriving DecidableEq, Repr

/-- First line of the default system prompt of
`src/prompts/clause_extraction.py`; the remainder of the literal is
omitted — no claim depends on its text, only on which string is chosen. -/
def SYSTEM_PROMPT : String :=
  "You are a legal document analysis assistant specialized in extracting and classifying contractual clauses."

/-- `build_extraction_prompt`: system content is the template's
`prompt_override` when the template is present and the override truthy
(non-`None` and non-empty), else the default prompt; user content wraps the
document text. -/
def buildExtractionPrompt (documentText : String) (template : Option AnalysisTemplate) :
    List ChatMessage :=
  let systemContent :=
    match template with
    | some t =>
      match t.prompt_override with
      | some ov => if ov ≠ "" then ov else SYSTEM_PROMPT
      | none => SYSTEM_PROMPT
    | none => SYSTEM_PROMPT
  [{ role := "system", content := systemContent },
   { role := "user", content := "Analyze this document:\n\n" ++ documentText }]

/-- Collaborator behaviour for one `analyze_document` call. -/
structure OrchEnv where
  docs : List Document
  templates : List AnalysisTemplate
  aiComplete : List ChatMessage → String → Nat → CallResult String
  validate : String → CallResult AIExtractionResponse

/-- Externally visible effects of one `analyze_document` call. -/
structure OrchTrace where
  outcome : Except PyExc AnalysisRec
  clauses : List ClauseRec
  aiCalls : Nat
  analysesCreated : Nat
  commits : Nat
deriving Repr

/-- The document query of step 1: `select(Document).where(Document.id ==
document_id, Document.tenant_id == tenant_id)` — the filter is on both id
and tenant id atomically. -/
def findDocument (docs : List Document) (documentId tenantId : Nat) : Option Document :=
  docs.find? (fun d => d.id == documentId && d.tenant_id == tenantId)

/-- The template query of step 3, also filtered by id and tenant id. -/
def findTemplate (templates : List AnalysisTemplate) (templateId tenantId : Nat) :
    Option AnalysisTemplate :=
  templates.find? (fun t => t.id == templateId && t.tenant_id == tenantId)

/-- Step 3: optional template resolution; a missing template only logs a
warning and analysis proceeds without override. -/
def resolveTemplate (env : OrchEnv) (templateId : Option Nat) (tenantId : Nat) :
    Option AnalysisTemplate :=
  match templateId with
  | none => none
  | some tid => findTemplate env.templates tid tenantId

/-- Step 5's `retry_with_backoff(_call_ai, max_retries=3)`: the closure
increments the attempt counter and calls `self._ai.complete` with the built
prompt, so the invocation count returned by the wrapper equals the final
attempt counter. -/
def analysisRetry (env : OrchEnv) (text : String) (template : Option AnalysisTemplate)
    (modelName : String) : CallResult String × Nat × List ℚ :=
  retryWithBackoff defaultRetryable 3 1
    (fun n => env.aiComplete (buildExtractionPrompt text template) modelName n)

/-- The clause-construction loop of the success branch: each validated entry
is mapped through the `ClauseType`/`RiskLevel` enum constructors and added
to the session; a `ValueError` from a constructor aborts the loop but the
rows already added stay in the session. -/
def buildClausesLoop : List ClauseExtraction → List ClauseRec × Option PyExc
  | [] => ([], none)
  | cd :: rest =>
    match clauseTypeOfValue cd.clause_type with
    | none =>
      ([], some (.otherExc ("ValueError: '" ++ cd.clause_type ++
        "' is not a valid ClauseType")))
    | some ct =>
      match riskLevelOfValue cd.risk_level with
      | none =>
        ([], some (.otherExc ("ValueError: '" ++ cd.risk_level ++
          "' is not a valid RiskLevel")))
      | some rl =>
        let r := buildClausesLoop rest
        ({ clause_type := ct, risk_level := rl, title := cd.title,
           summary := cd.summary, original_text := cd.original_text,
           page_number := cd.page_number,
           confidence_score := cd.confidence_score } :: r.1, r.2)

/-- The three `except` clauses, in source order: `AITimeoutError` →
`TIMED_OUT`, `AIResponseValidationError` → `FAILED`, any other `Exception`
→ `FAILED`; each records `str(exc)` as `error_message`. -/
def handleExc (a : AnalysisRec) (e : PyExc) : AnalysisRec :=
  match e with
  | .aiTimeout m => { a with status := .TIMED_OUT, error_message := some m }
  | .validationError m _ => { a with status := .FAILED, error_message := some m }
  | e => { a with status := .FAILED, error_message := some e.message }

/-- The `try` body and `except` clauses, as a function of the retry
wrapper's result: success validates the raw text, builds the clause rows and
marks `COMPLETED` with `completed_at` set; any raised exception is handled
by `handleExc`. -/
def runBranch (env : OrchEnv) (analysis0 : AnalysisRec) (res : CallResult String) :
    AnalysisRec × List ClauseRec :=
  match res with
  | .ok raw =>
    match env.validate raw with
    | .ok validated =>
      let built := buildClausesLoop validated.clauses
      match built.2 with
      | none => ({ analysis0 with status := .COMPLETED, completed_at_set := true }, built.1)
      | some e => (handleExc analysis0 e, built.1)
    | .exc e => (handleExc analysis0 e, [])
  | .exc e => (handleExc analysis0 e, [])

/-- Steps 4–6 once the preconditions passed: create the `Analysis` row in
`PROCESSING`, run the provider call under the retry policy, take exactly one
outcome branch, then the `finally` block sets
`retry_count = max(attempts - 1, 0)` and commits exactly once. -/
def runAnalysis (env : OrchEnv) (doc : Document) (text : String)
    (template : Option AnalysisTemplate) (modelProvider modelName : String) : OrchTrace :=
  let analysis0 : AnalysisRec :=
    { document_id := doc.id, tenant_id := doc.tenant_id,
      template_id := template.map (fun t => t.id),
      status := .PROCESSING, model_provider := modelProvider,
      model_name := modelName, completed_at_set := false,
      error_message := none, retry_count := 0 }
  let r := analysisRetry env text template modelName
  let branch := runBranch env analysis0 r.1
  { outcome := .ok { branch.1 with retry_count := r.2.1 - 1 },
    clauses := branch.2, aiCalls := r.2.1, analysesCreated := 1, commits := 1 }

/-- `AnalysisService.analyze_document`: the two entry preconditions, then
`runAnalysis`. -/
def analyzeDocument (env : OrchEnv) (documentId tenantId : Nat)
    (templateId : Option Nat) (modelProvider modelName : String) : OrchTrace :=
  match findDocument env.docs documentId tenantId with
  | none =>
    { outcome := .error (.documentNotFound ("Document " ++ toString documentId ++
        " not found for tenant " ++ toString tenantId)),
      clauses := [], aiCalls := 0, analysesCreated := 0, commits := 0 }
  | some document =>
    match document.extracted_text with
    | none =>
      { outcome := .error (.emptyDocument ("Document " ++ toString documentId ++
          " has no extracted text")),
        clauses := [], aiCalls := 0, analysesCreated := 0, commits := 0 }
    | some text =>
      if text = "" then
        { outcome := .error (.emptyDocument ("Document " ++ toString documentId ++
            " has no extracted text")),
          clauses := [], aiCalls := 0, analysesCreated := 0, commits := 0 }
      else
        runAnalysis env document text (resolveTemplate env templateId tenantId)
          modelProvider modelName

theorem retryAux_calls_ge {T : Type} (func : Nat → CallResult T) (retryable : PyExc → Bool)
    (baseDelay : ℚ) :
    ∀ (remaining i : Nat) (last : Option PyExc) (delays : List ℚ),
      i ≤ (retryAux func retryable baseDelay remaining i last delays).2.1 := by
  intro remaining
  induction remaining with
  | zero => intro i last delays; exact Nat.le_refl i
  | succ r ih =>
    intro i last delays
    simp only [retryAux]
    cases func i with
    | ok v => exact Nat.le_succ i
    | exc e =>
      by_cases hre : retryable e
      · simp only [hre, if_true]
        exact Nat.le_trans (Nat.le_succ i) (ih (i + 1) (some e) _)
      · simp only [hre, if_false]
        exact Nat.le_succ i

theorem retryWithBackoff_calls_pos {T : Type} (func : Nat → CallResult T)
    (retryable : PyExc → Bool) (maxRetries : Nat) (baseDelay : ℚ) (h : 0 < maxRetries) :
    1 ≤ (retryWithBackoff retryable maxRetries baseDelay func).2.1 := by
  obtain ⟨r, rfl⟩ := Nat.exists_eq_succ_of_ne_zero (Nat.pos_iff_ne_zero.mp h)
  unfold retryWithBackoff
  simp only [retryAux]
  cases func 0 with
  | ok v => exact Nat.le_refl 1
  | exc e =>
    by_cases hre : retryable e
    · simp only [hre, if_true]
      exact retryAux_calls_ge func retryable baseDelay r 1 (some e) _
    · simp only [hre, if_false]
      exact Nat.le_refl 1

theorem buildClausesLoop_length (l : List ClauseExtraction) :
    (buildClausesLoop l).2 = none → (buildClausesLoop l).1.length = l.length := by
  induction l with
  | nil => intro _; rfl
  | cons cd rest ih =>
    intro h
    unfold buildClausesLoop at h ⊢
    cases hct : clauseTypeOfValue cd.clause_type with
    | none => simp only [hct] at h; cases h
    | some ct =>
      simp only [hct] at h ⊢
      cases hrl : riskLevelOfValue cd.risk_level with
      | none => simp only [hrl] at h; cases h
      | some rl =>
        simp only [hrl] at h ⊢
        simp only [List.length_cons]
        rw [ih h]

theorem buildClausesLoop_err_shape (l : List ClauseExtraction) :
    ∀ e, (buildClausesLoop l).2 = some e → ∃ m, e = .otherExc m := by
  induction l with
  | nil => intro e h; cases h
  | cons cd rest ih =>
    intro e h
    unfold buildClausesLoop at h
    cases hct : clauseTypeOfValue cd.clause_type with
    | none =>
      simp only [hct] at h
      injection h with h2
      exact ⟨_, h2.symm⟩
    | some ct =>
      simp only [hct] at h
      cases hrl : riskLevelOfValue cd.risk_level with
      | none =>
        simp only [hrl] at h
        injection h with h2
        exact ⟨_, h2.symm⟩
      | some rl =>
        simp only [hrl] at h
        exact ih e h

/-- C5: a document missing for the requesting tenant (the lookup filters on
both document id and tenant id) fails the call with `DocumentNotFound`
before any provider call or `Analysis` row; a document present but with
empty or absent extracted text fails it with `EmptyDocument`, likewise with
zero provider calls and zero `Analysis` rows. -/
theorem orchestrator_precondition_failures (env : OrchEnv) (documentId tenantId : Nat)
    (templateId : Option Nat) (modelProvider modelName : String) :
    ((∀ d ∈ env.docs, ¬ (d.id = documentId ∧ d.tenant_id = tenantId)) →
      (∃ m, (analyzeDocument env documentId tenantId templateId
          modelProvider modelName).outcome = .error (.documentNotFound m)) ∧
      (analyzeDocument env documentId tenantId templateId
        modelProvider modelName).aiCalls = 0 ∧
      (analyzeDocument env documentId tenantId templateId
        modelProvider modelName).analysesCreated = 0) ∧
    (∀ d, findDocument env.docs documentId tenantId = some d →
      (d.extracted_text = none ∨ d.extracted_text = some "") →
      (∃ m, (analyzeDocument env documentId tenantId templateId
          modelProvider modelName).outcome = .error (.emptyDocument m)) ∧
      (analyzeDocument env documentId tenantId templateId
        modelProvider modelName).aiCalls = 0 ∧
      (analyzeDocument env documentId tenantId templateId
        modelProvider modelName).analysesCreated = 0) := by
  constructor
  · intro hnone
    have hfind : findDocument env.docs documentId tenantId = none := by
      unfold findDocument
      rw [List.find?_eq_none]
      intro d hd
      have := hnone d hd
      simp only [Bool.and_eq_true, beq_iff_eq]
      intro hcontra
      exact this ⟨hcontra.1, hcontra.2⟩
    simp only [analyzeDocument, hfind]
    exact ⟨⟨_, rfl⟩, by trivial, by trivial⟩
  · intro d hfind hempty
    simp only [analyzeDocument, hfind]
    rcases hempty with hnone | hblank
    · simp only [hnone]
      exact ⟨⟨_, rfl⟩, by trivial, by trivial⟩
    · simp only [hblank, if_pos rfl]
      exact ⟨⟨_, rfl⟩, by trivial, by trivial⟩

/-- Witness for C5: a store holding the document under tenant 1 only and an
empty-text document; looking it up as tenant 2 fails with
`DocumentNotFound` and the empty-text one with `EmptyDocument`, both with
zero provider calls and zero `Analysis` rows. -/
theorem orchestrator_precondition_failures_witness :
    ((∃ m, (analyzeDocument
        { docs := [{ id := 10, tenant_id := 1, extracted_text := some "text" }],
          templates := [], aiComplete := fun _ _ _ => .ok "raw",
          validate := fun r => .exc (.validationError "v" r) }
        10 2 none "anthropic" "m").outcome = .error (.documentNotFound m)) ∧
      (analyzeDocument
        { docs := [{ id := 10, tenant_id := 1, extracted_text := some "text" }],
          templates := [], aiComplete := fun _ _ _ => .ok "raw",
          validate := fun r => .exc (.validationError "v" r) }
        10 2 none "anthropic" "m").aiCalls = 0 ∧
      (analyzeDocument
        { docs := [{ id := 10, tenant_id := 1, extracted_text := some "text" }],
          templates := [], aiComplete := fun _ _ _ => .ok "raw",
          validate := fun r => .exc (.validationError "v" r) }
        10 2 none "anthropic" "m").analysesCreated = 0) ∧
    ((∃ m, (analyzeDocument
        { docs := [{ id := 11, tenant_id := 1, extracted_text := some "" }],
          templates := [], aiComplete := fun _ _ _ => .ok "raw",
          validate := fun r => .exc (.validationError "v" r) }
        11 1 none "anthropic" "m").outcome = .error (.emptyDocument m)) ∧
      (analyzeDocument
        { docs := [{ id := 11, tenant_id := 1, extracted_text := some "" }],
          templates := [], aiComplete := fun _ _ _ => .ok "raw",
          validate := fun r => .exc (.validationError "v" r) }
        11 1 none "anthropic" "m").aiCalls = 0 ∧
      (analyzeDocument
        { docs := [{ id := 11, tenant_id := 1, extracted_text := some "" }],
          templates := [], aiComplete := fun _ _ _ => .ok "raw",
          validate := fun r => .exc (.validationError "v" r) }
        11 1 none "anthropic" "m").analysesCreated = 0) := by
  constructor
  · exact (orchestrator_precondition_failures _ 10 2 none "anthropic" "m").1
      (by intro d hd; simp at hd; subst hd; simp)
  · exact (orchestrator_precondition_failures _ 11 1 none "anthropic" "m").2
      { id := 11, tenant_id := 1, extracted_text := some "" }
      (by rfl) (Or.inr rfl)

/-- C2: once both entry preconditions pass, the orchestrator always returns
(never raises) a terminal-status `Analysis` committed exactly once in the
finalization step, with `retry_count` = attempts made minus one; exactly one
outcome branch applies: timeout-kind retry exhaustion → `TIMED_OUT` with the
timeout detail, validator failure → `FAILED` with the validation detail,
success → `COMPLETED` with `completed_at` set and one `Clause` per validated
entry, and any other failure → `FAILED`. -/
theorem orchestrator_terminal_outcomes (env : OrchEnv) (documentId tenantId : Nat)
    (templateId : Option Nat) (modelProvider modelName : String)
    (doc : Document) (text : String)
    (hdoc : findDocument env.docs documentId tenantId = some doc)
    (htext : doc.extracted_text = some text) (hne : text ≠ "") :
    ∃ rec : AnalysisRec,
      (analyzeDocument env documentId tenantId templateId
        modelProvider modelName).outcome = .ok rec ∧
      (rec.status = .COMPLETED ∨ rec.status = .FAILED ∨ rec.status = .TIMED_OUT) ∧
      (analyzeDocument env documentId tenantId templateId
        modelProvider modelName).commits = 1 ∧
      (analyzeDocument env documentId tenantId templateId
        modelProvider modelName).analysesCreated = 1 ∧
      1 ≤ (analyzeDocument env documentId tenantId templateId
        modelProvider modelName).aiCalls ∧
      rec.retry_count = (analyzeDocument env documentId tenantId templateId
        modelProvider modelName).aiCalls - 1 ∧
      (∀ m, (analysisRetry env text (resolveTemplate env templateId tenantId)
          modelName).1 = .exc (.aiTimeout m) →
        rec.status = .TIMED_OUT ∧ rec.error_message = some m) ∧
      (∀ raw m rawResp, (analysisRetry env text (resolveTemplate env templateId tenantId)
          modelName).1 = .ok raw →
        env.validate raw = .exc (.validationError m rawResp) →
        rec.status = .FAILED ∧ rec.error_message = some m) ∧
      (∀ raw validated, (analysisRetry env text (resolveTemplate env templateId tenantId)
          modelName).1 = .ok raw →
        env.validate raw = .ok validated →
        (buildClausesLoop validated.clauses).2 = none →
        rec.status = .COMPLETED ∧ rec.completed_at_set = true ∧
        (analyzeDocument env documentId tenantId templateId
          modelProvider modelName).clauses.length = validated.clauses.length) ∧
      (∀ e, (analysisRetry env text (resolveTemplate env templateId tenantId)
          modelName).1 = .exc e →
        (∀ m, e ≠ .aiTimeout m) → rec.status = .FAILED) ∧
      (∀ raw e, (analysisRetry env text (resolveTemplate env templateId tenantId)
          modelName).1 = .ok raw →
        env.validate raw = .exc e →
        (∀ m, e ≠ .aiTimeout m) → (∀ m rr, e ≠ .validationError m rr) →
        rec.status = .FAILED) ∧
      (∀ raw validated e, (analysisRetry env text (resolveTemplate env templateId tenantId)
          modelName).1 = .ok raw →
        env.validate raw = .ok validated →
        (buildClausesLoop validated.clauses).2 = some e →
        rec.status = .FAILED) := by
  have hred : analyzeDocument env documentId tenantId templateId modelProvider modelName =
      runAnalysis env doc text (resolveTemplate env templateId tenantId)
        modelProvider modelName := by
    simp only [analyzeDocument, hdoc, htext]
    rw [if_neg hne]
  rw [hred]
  have hcalls : 1 ≤ (analysisRetry env text (resolveTemplate env templateId tenantId)
      modelName).2.1 :=
    retryWithBackoff_calls_pos _ defaultRetryable 3 1 (by omega)
  rcases hR : analysisRetry env text (resolveTemplate env templateId tenantId) modelName
    with ⟨res, attempts, delays⟩
  rw [hR] at hcalls
  simp only at hcalls
  simp only [runAnalysis, hR]
  cases res with
  | ok raw =>
    cases hv : env.validate raw with
    | ok validated =>
      cases hb : (buildClausesLoop validated.clauses).2 with
      | none =>
        refine ⟨_, rfl, ?_, by trivial, by trivial, hcalls, by trivial, ?_, ?_, ?_, ?_, ?_, ?_⟩
        · simp [runBranch, hv, hb]
        · intro m hm; cases hm
        · intro raw2 m rawResp hraw2 hv2
          cases hraw2
          rw [hv] at hv2
          cases hv2
        · intro raw2 validated2 hraw2 hv2 hb2
          cases hraw2
          rw [hv] at hv2
          injection hv2 with hv3
          subst hv3
          refine ⟨?_, ?_, ?_⟩
          · simp [runBranch, hv, hb]
          · simp [runBranch, hv, hb]
          · simp only [runBranch, hv, hb]
            exact buildClausesLoop_length validated.clauses hb
        · intro e he; cases he
        · intro raw2 e hraw2 hv2
          cases hraw2
          rw [hv] at hv2
          cases hv2
        · intro raw2 validated2 e hraw2 hv2 hb2
          cases hraw2
          rw [hv] at hv2
          injection hv2 with hv3
          subst hv3
          rw [hb] at hb2
          cases hb2
      | some e =>
        obtain ⟨m, rfl⟩ := buildClausesLoop_err_shape validated.clauses e hb
        refine ⟨_, rfl, ?_, by trivial, by trivial, hcalls, by trivial, ?_, ?_, ?_, ?_, ?_, ?_⟩
        · simp [runBranch, hv, hb, handleExc]
        · intro m2 hm; cases hm
        · intro raw2 m2 rawResp hraw2 hv2
          cases hraw2
          rw [hv] at hv2
          cases hv2
        · intro raw2 validated2 hraw2 hv2 hb2
          cases hraw2
          rw [hv] at hv2
          injection hv2 with hv3
          subst hv3
          rw [hb] at hb2
          cases hb2
        · intro e2 he; cases he
        · intro raw2 e2 hraw2 hv2
          cases hraw2
          rw [hv] at hv2
          cases hv2
        · intro raw2 validated2 e2 hraw2 hv2 hb2
          cases hraw2
          rw [hv] at hv2
          injection hv2 with hv3
          subst hv3
          simp [runBranch, hv, hb, handleExc]
    | exc e =>
      refine ⟨_, rfl, ?_, by trivial, by trivial, hcalls, by trivial, ?_, ?_, ?_, ?_, ?_, ?_⟩
      · cases e <;> simp [runBranch, hv, handleExc]
      · intro m hm; cases hm
      · intro raw2 m rawResp hraw2 hv2
        cases hraw2
        rw [hv] at hv2
        injection hv2 with hv3
        subst hv3
        simp [runBranch, hv, handleExc]
      · intro raw2 validated2 hraw2 hv2
        cases hraw2
        rw [hv] at hv2
        cases hv2
      · intro e2 he; cases he
      · intro raw2 e2 hraw2 hv2 hnt hnv
        cases hraw2
        rw [hv] at hv2
        injection hv2 with hv3
        subst hv3
        cases e with
        | aiTimeout m => exact absurd rfl (hnt m)
        | validationError m rr => exact absurd rfl (hnv m rr)
        | httpStatusError m => simp [runBranch, hv, handleExc]
        | documentNotFound m => simp [runBranch, hv, handleExc]
        | emptyDocument m => simp [runBranch, hv, handleExc]
        | lockAcquisition m => simp [runBranch, hv, handleExc]
        | otherExc m => simp [runBranch, hv, handleExc]
      · intro raw2 validated2 e2 hraw2 hv2
        cases hraw2
        rw [hv] at hv2
        cases hv2
  | exc e =>
    refine ⟨_, rfl, ?_, by trivial, by trivial, hcalls, by trivial, ?_, ?_, ?_, ?_, ?_, ?_⟩
    · cases e <;> simp [runBranch, handleExc]
    · intro m hm
      injection hm with hm2
      subst hm2
      simp [runBranch, handleExc]
    · intro raw2 m rawResp hraw2; cases hraw2
    · intro raw2 validated2 hraw2; cases hraw2
    · intro e2 he hnt
      injection he with he2
      subst he2
      cases e with
      | aiTimeout m => exact absurd rfl (hnt m)
      | httpStatusError m => simp [runBranch, handleExc]
      | validationError m rr => simp [runBranch, handleExc]
      | documentNotFound m => simp [runBranch, handleExc]
      | emptyDocument m => simp [runBranch, handleExc]
      | lockAcquisition m => simp [runBranch, handleExc]
      | otherExc m => simp [runBranch, handleExc]
    · intro raw2 e2 hraw2; cases hraw2
    · intro raw2 validated2 e2 hraw2; cases hraw2

/-- Concrete environment for the C2 witness: one document for tenant 7, a
provider that answers immediately, and a validator accepting a one-clause
response. -/
def orchSuccessEnv : OrchEnv :=
  { docs := [{ id := 1, tenant_id := 7, extracted_text := some "contract text" }],
    templates := [],
    aiComplete := fun _ _ _ => .ok "raw",
    validate := fun _ => .ok
      { is_contract := true, language := "English",
        clauses := [{ clause_type := "PENALTY", risk_level := "LOW", title := "t",
                      summary := "s", original_text := "o", confidence_score := 1 }],
        metadata := { contract_type := "NDA", parties_involved := ["A"],
                      total_clauses_found := 1 } } }

/-- Witness for C2 on `orchSuccessEnv`. -/
theorem orchestrator_terminal_outcomes_witness :
    ∃ rec : AnalysisRec,
      (analyzeDocument orchSuccessEnv 1 7 none "anthropic" "m").outcome = .ok rec ∧
      (rec.status = .COMPLETED ∨ rec.status = .FAILED ∨ rec.status = .TIMED_OUT) ∧
      (analyzeDocument orchSuccessEnv 1 7 none "anthropic" "m").commits = 1 ∧
      (analyzeDocument orchSuccessEnv 1 7 none "anthropic" "m").analysesCreated = 1 ∧
      1 ≤ (analyzeDocument orchSuccessEnv 1 7 none "anthropic" "m").aiCalls ∧
      rec.retry_count =
        (analyzeDocument orchSuccessEnv 1 7 none "anthropic" "m").aiCalls - 1 ∧
      (∀ m, (analysisRetry orchSuccessEnv "contract text"
          (resolveTemplate orchSuccessEnv none 7) "m").1 = .exc (.aiTimeout m) →
        rec.status = .TIMED_OUT ∧ rec.error_message = some m) ∧
      (∀ raw m rawResp, (analysisRetry orchSuccessEnv "contract text"
          (resolveTemplate orchSuccessEnv none 7) "m").1 = .ok raw →
        orchSuccessEnv.validate raw = .exc (.validationError m rawResp) →
        rec.status = .FAILED ∧ rec.error_message = some m) ∧
      (∀ raw validated, (analysisRetry orchSuccessEnv "contract text"
          (resolveTemplate orchSuccessEnv none 7) "m").1 = .ok raw →
        orchSuccessEnv.validate raw = .ok validated →
        (buildClausesLoop validated.clauses).2 = none →
        rec.status = .COMPLETED ∧ rec.completed_at_set = true ∧
        (analyzeDocument orchSuccessEnv 1 7 none "anthropic" "m").clauses.length =
          validated.clauses.length) ∧
      (∀ e, (analysisRetry orchSuccessEnv "contract text"
          (resolveTemplate orchSuccessEnv none 7) "m").1 = .exc e →
        (∀ m, e ≠ .aiTimeout m) → rec.status = .FAILED) ∧
      (∀ raw e, (analysisRetry orchSuccessEnv "contract text"
          (resolveTemplate orchSuccessEnv none 7) "m").1 = .ok raw →
        orchSuccessEnv.validate raw = .exc e →
        (∀ m, e ≠ .aiTimeout m) → (∀ m rr, e ≠ .validationError m rr) →
        rec.status = .FAILED) ∧
      (∀ raw validated e, (analysisRetry orchSuccessEnv "contract text"
          (resolveTemplate orchSuccessEnv none 7) "m").1 = .ok raw →
        orchSuccessEnv.validate raw = .ok validated →
        (buildClausesLoop validated.clauses).2 = some e →
        rec.status = .FAILED) :=
  orchestrator_terminal_outcomes orchSuccessEnv 1 7 none "anthropic" "m"
    { id := 1, tenant_id := 7, extracted_text := some "contract text" }
    "contract text" rfl rfl (by decide)

/-- C10: the retry wrapper's default retryable set is exactly
`{AITimeoutError, httpx.HTTPStatusError}`; a provider call failing every
attempt with an HTTP status failure (for example a non-transient 404) is
retried with backoff until `max_retries = 3` is exhausted (delays 1, 2, 4)
and the re-raised failure lands in the orchestrator's unclassified-failure
branch: terminal status `FAILED` (not `TIMED_OUT`) with the failure detail. -/
theorem http_status_retried_then_failed (env : OrchEnv) (documentId tenantId : Nat)
    (templateId : Option Nat) (modelProvider modelName : String)
    (doc : Document) (text msg : String)
    (hdoc : findDocument env.docs documentId tenantId = some doc)
    (htext : doc.extracted_text = some text) (hne : text ≠ "")
    (hfail : ∀ n, env.aiComplete
      (buildExtractionPrompt text (resolveTemplate env templateId tenantId))
      modelName n = .exc (.httpStatusError msg)) :
    (∀ e, defaultRetryable e = true ↔
      ((∃ m, e = .aiTimeout m) ∨ (∃ m, e = .httpStatusError m))) ∧
    analysisRetry env text (resolveTemplate env templateId tenantId) modelName =
      (.exc (.httpStatusError msg), 3, [1, 2, 4]) ∧
    ∃ rec : AnalysisRec,
      (analyzeDocument env documentId tenantId templateId
        modelProvider modelName).outcome = .ok rec ∧
      rec.status = .FAILED ∧ rec.status ≠ .TIMED_OUT ∧
      rec.error_message = some msg ∧ rec.retry_count = 2 ∧
      (analyzeDocument env documentId tenantId templateId
        modelProvider modelName).aiCalls = 3 := by
  have hfunc : (fun n => env.aiComplete
      (buildExtractionPrompt text (resolveTemplate env templateId tenantId))
      modelName n) = fun _ => .exc (.httpStatusError msg) :=
    funext (fun n => hfail n)
  have hR : analysisRetry env text (resolveTemplate env templateId tenantId) modelName =
      (.exc (.httpStatusError msg), 3, [1, 2, 4]) := by
    unfold analysisRetry
    rw [hfunc]
    unfold retryWithBackoff
    simp only [retryAux, defaultRetryable, if_true, raiseLast]
    norm_num
  refine ⟨?_, hR, ?_⟩
  · intro e
    cases e <;> simp [defaultRetryable]
  · have hred : analyzeDocument env documentId tenantId templateId
        modelProvider modelName =
        runAnalysis env doc text (resolveTemplate env templateId tenantId)
          modelProvider modelName := by
      simp only [analyzeDocument, hdoc, htext]
      rw [if_neg hne]
    rw [hred]
    simp only [runAnalysis, hR]
    exact ⟨_, rfl, by simp [runBranch, handleExc, PyExc.message], by simp [runBranch,
      handleExc, PyExc.message], by simp [runBranch, handleExc, PyExc.message],
      by trivial, by trivial⟩

/-- Witness for C10: a document store with one document and a provider that
always answers 404. -/
theorem http_status_retried_then_failed_witness :
    (∀ e, defaultRetryable e = true ↔
      ((∃ m, e = .aiTimeout m) ∨ (∃ m, e = .httpStatusError m))) ∧
    analysisRetry
      { docs := [{ id := 2, tenant_id := 5, extracted_text := some "doc" }],
        templates := [],
        aiComplete := fun _ _ _ => .exc (.httpStatusError "404 Client Error"),
        validate := fun r => .exc (.validationError "v" r) }
      "doc" (resolveTemplate
        { docs := [{ id := 2, tenant_id := 5, extracted_text := some "doc" }],
          templates := [],
          aiComplete := fun _ _ _ => .exc (.httpStatusError "404 Client Error"),
          validate := fun r => .exc (.validationError "v" r) } none 5) "m" =
      (.exc (.httpStatusError "404 Client Error"), 3, [1, 2, 4]) ∧
    ∃ rec : AnalysisRec,
      (analyzeDocument
        { docs := [{ id := 2, tenant_id := 5, extracted_text := some "doc" }],
          templates := [],
          aiComplete := fun _ _ _ => .exc (.httpStatusError "404 Client Error"),
          validate := fun r => .exc (.validationError "v" r) }
        2 5 none "anthropic" "m").outcome = .ok rec ∧
      rec.status = .FAILED ∧ rec.status ≠ .TIMED_OUT ∧
      rec.error_message = some "404 Client Error" ∧ rec.retry_count = 2 ∧
      (analyzeDocument
        { docs := [{ id := 2, tenant_id := 5, extracted_text := some "doc" }],
          templates := [],
          aiComplete := fun _ _ _ => .exc (.httpStatusError "404 Client Error"),
          validate := fun r => .exc (.validationError "v" r) }
        2 5 none "anthropic" "m").aiCalls = 3 :=
  http_status_retried_then_failed
    { docs := [{ id := 2, tenant_id := 5, extracted_text := some "doc" }],
      templates := [],
      aiComplete := fun _ _ _ => .exc (.httpStatusError "404 Client Error"),
      validate := fun r => .exc (.validationError "v" r) }
    2 5 none "anthropic" "m"
    { id := 2, tenant_id := 5, extracted_text := some "doc" }
    "doc" "404 Client Error" rfl rfl (by decide) (fun _ => rfl)

/-! ## Job Worker (`AnalysisWorker._process_job`, `src/workers/worker.py`)

The Redis/queue collaborators are abstracted into an environment; the trace
records the queue and marker operations performed.  Python control flow is
embedded operation-for-operation; in particular, the `finally` block of the
`try` statement runs on *every* exit from it — including the `return`
statement inside the `except LockAcquisitionError` handler. -/

/-- Collaborator behaviour for one `_process_job` call: whether the dedup
marker was already present (`SET NX` returns nothing), whether the
per-document lock is already held by another worker (`redis.lock` raises
`LockAcquisitionError`), and what `AnalysisService.analyze_document` does
when reached (its returned record, or one of its precondition failures). -/
structure WorkerEnv where
  dedupAlreadySet : Bool
  lockHeld : Bool
  analyzeResult : CallResult AnalysisRec
deriving Repr

/-- Externally visible effects of one `_process_job` call. -/
structure JobTrace where
  acks : Nat
  requeues : List Nat
  dedupMarkerSet : Bool
  dedupMarkerDeleted : Bool
  orchestratorInvoked : Bool
deriving DecidableEq, Repr

/-- `AnalysisWorker._process_job`: deduplicate (present marker → ack and
return); otherwise enter the `try` block — lock contention raises
`LockAcquisitionError`, caught by the first handler which re-queues with
delay 30 and returns; any other exception is caught by the second handler
which deletes the dedup marker; the `finally` block acknowledges the job on
every one of these exits, the handler `return` included. -/
def processJob (env : WorkerEnv) : JobTrace :=
  if env.dedupAlreadySet then
    { acks := 1, requeues := [], dedupMarkerSet := false,
      dedupMarkerDeleted := false, orchestratorInvoked := false }
  else if env.lockHeld then
    { acks := 1, requeues := [30], dedupMarkerSet := true,
      dedupMarkerDeleted := false, orchestratorInvoked := false }
  else
    match env.analyzeResult with
    | .ok _ =>
      { acks := 1, requeues := [], dedupMarkerSet := true,
        dedupMarkerDeleted := false, orchestratorInvoked := true }
    | .exc (.lockAcquisition _) =>
      { acks := 1, requeues := [30], dedupMarkerSet := true,
        dedupMarkerDeleted := false, orchestratorInvoked := true }
    | .exc _ =>
      { acks := 1, requeues := [], dedupMarkerSet := true,
        dedupMarkerDeleted := true, orchestratorInvoked := true }

/-- C1 counterexample: with the per-document lock already held by another
worker, the job is re-queued with delay 30 and the Orchestrator is never
invoked — but the unconditional acknowledgment IS performed on that path
(`acks = 1`, not `0`): the `finally` block runs even on the `return` inside
the `except LockAcquisitionError` handler, so the lock-contention branch
does not skip the ack. -/
theorem lock_contention_still_acks_counterexample :
    processJob { dedupAlreadySet := false, lockHeld := true,
                 analyzeResult := .exc (.otherExc "unused") } =
      { acks := 1, requeues := [30], dedupMarkerSet := true,
        dedupMarkerDeleted := false, orchestratorInvoked := false } ∧
    (processJob { dedupAlreadySet := false, lockHeld := true,
                  analyzeResult := .exc (.otherExc "unused") }).acks ≠ 0 := by
  exact ⟨rfl, by decide⟩

/-- C1 amended: when the per-document lock is already held by another
worker, the job is re-queued with delay 30, the Orchestrator is never
invoked for that attempt, and the dedup marker is left in place — but the
unconditional acknowledgment still runs on that path, because the `finally`
block executes even on the handler's early `return`; the job is acknowledged
exactly once in every processing branch. -/
theorem lock_contention_requeues_and_acks (env : WorkerEnv) :
    (env.dedupAlreadySet = false → env.lockHeld = true →
      processJob env =
        { acks := 1, requeues := [30], dedupMarkerSet := true,
          dedupMarkerDeleted := false, orchestratorInvoked := false }) ∧
    (processJob env).acks = 1 := by
  constructor
  · intro hd hl
    unfold processJob
    rw [hd, hl]
    rfl
  · unfold processJob
    by_cases hd : env.dedupAlreadySet
    · rw [if_pos hd]
    · rw [if_neg hd]
      by_cases hl : env.lockHeld
      · rw [if_pos hl]
      · rw [if_neg hl]
        rcases env.analyzeResult with v | e
        · rfl
        · cases e <;> rfl

/-- Witness for C1 (amended) at a concrete contended environment. -/
theorem lock_contention_requeues_and_acks_witness :
    processJob { dedupAlreadySet := false, lockHeld := true,
                 analyzeResult := .ok { document_id := 1, tenant_id := 7,
                                        template_id := none, status := .COMPLETED,
                                        model_provider := "anthropic", model_name := "m",
                                        completed_at_set := true, error_message := none,
                                        retry_count := 0 } } =
      { acks := 1, requeues := [30], dedupMarkerSet := true,
        dedupMarkerDeleted := false, orchestratorInvoked := false } ∧
    (processJob { dedupAlreadySet := false, lockHeld := true,
                  analyzeResult := .ok { document_id := 1, tenant_id := 7,
                                         template_id := none, status := .COMPLETED,
                                         model_provider := "anthropic", model_name := "m",
                                         completed_at_set := true, error_message := none,
                                         retry_count := 0 } }).acks = 1 :=
  ⟨(lock_contention_requeues_and_acks _).1 rfl rfl,
    (lock_contention_requeues_and_acks _).2⟩

/-- Witness for the amended C6 at a concrete message sequence with two
system-role messages. -/
theorem anthropic_body_last_system_wins_witness :
    (anthropicRequestBody
      [{ role := "system", content := "a" }, { role := "system", content := "b" },
       { role := "user", content := "u" }] "model-x").messages =
      ([{ role := "system", content := "a" }, { role := "system", content := "b" },
        ({ role := "user", content := "u" } : ChatMessage)].filter
        (fun m => !(m.role == "system"))) ∧
    (anthropicRequestBody
      [{ role := "system", content := "a" }, { role := "system", content := "b" },
       { role := "user", content := "u" }] "model-x").system =
      (lastSystemContent
        [{ role := "system", content := "a" }, { role := "system", content := "b" },
         { role := "user", content := "u" }]).bind
        (fun c => if c = "" then none else some c) :=
  anthropic_body_last_system_wins
    [{ role := "system", content := "a" }, { role := "system", content := "b" },
     { role := "user", content := "u" }] "model-x"

end MarketLabs
